import Mathlib

/-!
Verification of the frame-selection / thumbnail-composition pipeline of the
`knowlede-management` repository (a video-thumbnail extraction tool).

The Python sources under `src/src/` are shallowly embedded below:
pure control flow is translated directly; calls into external libraries
(OpenCV, scikit-learn, ffprobe, the file system) are parameters of the
embedded functions, since their outputs are data the Python code merely
consumes.  Machine floats of the source are modelled as rationals: every
constant appearing in the modelled code (0.3, 0.4, 0.5, 1.0, thresholds)
is exactly representable in binary floating point and the comparisons
performed on them are exact, so the rational model agrees with the float
semantics on everything proved here.  Python exceptions are modelled with
`Except`; a Python function that can loop forever is modelled with fuel,
returning `Option`.
-/

deriving instance DecidableEq for Except

namespace KM

/-- A pixel buffer: `numpy` array of shape (height, width, 3).  The payload
`data` stands for the pixel contents, which the modelled control flow never
inspects (only external OpenCV calls do). -/
structure Image where
  width : Nat
  height : Nat
  data : Nat
  deriving DecidableEq, Repr

/-- Identity of a `VideoFile`; `VideoFile.__eq__` compares file paths, and
frames carry a back reference to their video.  Only the identity matters to
the embedded control flow. -/
structure VideoRef where
  fileId : Nat
  deriving DecidableEq, Repr

/-- `src/src/models/frame.py` `Frame`: the fields consumed by the embedded
services.  `quality_score` is validated to lie in `[0,1]` by
`Frame.__post_init__`. -/
structure Frame where
  video_file : VideoRef
  frame_number : Nat
  timestamp : ℚ
  image_data : Image
  quality_score : ℚ
  deriving DecidableEq, Repr

/-- `Frame.__eq__` (frame.py lines 324-329): equality is decided by the
owning video file and the frame number only — pixel data is ignored. -/
def frameEq (a b : Frame) : Bool :=
  a.video_file = b.video_file && a.frame_number = b.frame_number

/-- Python `x in list` for a list of `Frame`s uses `Frame.__eq__`. -/
def frameMem (x : Frame) (l : List Frame) : Bool :=
  l.any (fun y => frameEq y x)

/-- A placeholder frame for total list indexing in positions the source
code guarantees to be in range. -/
def defaultFrame : Frame :=
  { video_file := ⟨0⟩, frame_number := 0, timestamp := 0,
    image_data := ⟨0, 0, 0⟩, quality_score := 0 }

/-! ## VideoProcessor (src/src/services/video_processor.py) -/

/-- Errors surfaced by the embedded `VideoProcessor` operations.
`invalidThreshold` is `InvalidThresholdError`; `valueError` is the plain
`ValueError` raised for a non-positive interval; `videoProcessing` is
`VideoProcessingError`, which the outer handler of `extract_frames` wraps
every in-flight exception into (including `InsufficientMemoryError`). -/
inductive VideoErr where
  | invalidThreshold
  | valueError
  | videoProcessing
  deriving DecidableEq, Repr

/-- `VideoProcessor.detect_scene_changes` (video_processor.py lines
223-241) exactly as executed: after validating the threshold the method
body ends — the `def _get_video_rotation` on line 242 closes it — so for
every in-range threshold CPython returns `None`.  The result type is
therefore `Option (List Frame)`, with `none` standing for Python `None`. -/
def detect_scene_changes (_frames : List Frame) (threshold : ℚ) :
    Except VideoErr (Option (List Frame)) :=
  if ¬ (0 ≤ threshold ∧ threshold ≤ 1) then
    .error .invalidThreshold
  else
    .ok none

/-- The scene-change selection loop that is stranded as unreachable code
inside `_get_video_rotation` (video_processor.py lines 294-306, after a
`try`/`except` in which every path returns): first frame always kept, a
later frame kept when its histogram divergence from its immediate
predecessor is `≥ threshold`.  `histDiff` stands for
`_calculate_histogram_difference`, an OpenCV computation. -/
def scene_change_dead_code (histDiff : Image → Image → ℚ)
    (frames : List Frame) (threshold : ℚ) : List Frame :=
  if frames.length < 2 then frames
  else
    match frames with
    | [] => []
    | f0 :: rest => f0 :: go f0 rest
where
  go (prev : Frame) : List Frame → List Frame
    | [] => []
    | f :: fs =>
        if histDiff prev.image_data f.image_data ≥ threshold then
          f :: go f fs
        else
          go f fs

/-! ## UserSettings (src/src/models/user_settings.py) -/

/-- `FaceSizePreference` enum. -/
inductive FaceSizePreference where
  | large | medium | small | balanced
  deriving DecidableEq, Repr

/-- Failure modes of `UserSettings.__post_init__`.  `valueError` and
`typeError` stand for the `ValueError`/`TypeError` raises;
`attributeErrorOrientation` stands for the `AttributeError` CPython raises
when `_validate_output_settings` evaluates `self.orientation`
(user_settings.py line 106): the dataclass declares no `orientation` field
or property — the comment on line 36 says the orientation is derived from
the width/height comparison instead — so the attribute lookup fails. -/
inductive SettingsErr where
  | valueError
  | typeError
  | attributeErrorOrientation
  deriving DecidableEq, Repr

/-- The raw field values handed to the `UserSettings` dataclass
constructor, before `__post_init__` validation.  `file_name_stem` embeds
the source field `file_name_prefix`. -/
structure UserSettingsInput where
  output_width : Int
  output_height : Int
  thumbnail_count : Int
  file_name_stem : String
  output_format : String
  quality_threshold : ℚ
  diversity_weight : ℚ
  face_size_preference : FaceSizePreference
  frame_interval : ℚ
  scene_change_threshold : ℚ
  face_confidence_threshold : ℚ
  deriving DecidableEq, Repr

/-- `UserSettings._validate_output_settings` (user_settings.py lines
83-107).  The final statement of the method reads `self.orientation`,
which no construction can supply, so every run that passes the numeric
checks ends in `AttributeError`. -/
def validate_output_settings (s : UserSettingsInput) : Except SettingsErr Unit :=
  if s.output_width ≤ 0 then .error .valueError
  else if s.output_width < 240 ∨ s.output_width > 4096 then .error .valueError
  else if s.output_height ≤ 0 then .error .valueError
  else if s.output_height < 240 ∨ s.output_height > 4096 then .error .valueError
  else if s.thumbnail_count ≤ 0 then .error .valueError
  else if s.thumbnail_count > 20 then .error .valueError
  else .error .attributeErrorOrientation

/-- `UserSettings._validate_file_settings` (user_settings.py lines
109-125): non-empty stem after strip, no reserved filename characters,
output format PNG (case-insensitively). -/
def validate_file_settings (s : UserSettingsInput) : Except SettingsErr Unit :=
  if (s.file_name_stem.trim.isEmpty) then .error .valueError
  else if ("<>:/\\|?*".toList ++ ['"']).any
      (fun c => s.file_name_stem.toList.contains c) then .error .valueError
  else if s.output_format.toUpper ≠ "PNG" then .error .valueError
  else .ok ()

/-- `UserSettings._validate_quality_settings` (user_settings.py lines
127-142). -/
def validate_quality_settings (s : UserSettingsInput) : Except SettingsErr Unit :=
  if ¬ (0 ≤ s.quality_threshold ∧ s.quality_threshold ≤ 1) then .error .valueError
  else if ¬ (0 ≤ s.diversity_weight ∧ s.diversity_weight ≤ 1) then .error .valueError
  else .ok ()

/-- `UserSettings._validate_processing_settings` (user_settings.py lines
144-163). -/
def validate_processing_settings (s : UserSettingsInput) : Except SettingsErr Unit :=
  if s.frame_interval ≤ 0 then .error .valueError
  else if s.frame_interval > 10 then .error .valueError
  else if ¬ (0 ≤ s.scene_change_threshold ∧ s.scene_change_threshold ≤ 1) then
    .error .valueError
  else if ¬ (0 ≤ s.face_confidence_threshold ∧ s.face_confidence_threshold ≤ 1) then
    .error .valueError
  else .ok ()

/-- `UserSettings.__post_init__` (user_settings.py lines 67-81):
the four validators run in order; success would yield the immutable
settings value. -/
def mkUserSettings (s : UserSettingsInput) : Except SettingsErr UserSettingsInput := do
  validate_output_settings s
  validate_file_settings s
  validate_quality_settings s
  validate_processing_settings s
  pure s

/-- The dataclass defaults of `UserSettings` (user_settings.py lines
33-54): 1920x1080, five thumbnails, PNG — a fully valid configuration. -/
def defaultSettingsInput : UserSettingsInput :=
  { output_width := 1920
    output_height := 1080
    thumbnail_count := 5
    file_name_stem := "thumbnail"
    output_format := "PNG"
    quality_threshold := 7/10
    diversity_weight := 8/10
    face_size_preference := .balanced
    frame_interval := 1
    scene_change_threshold := 3/10
    face_confidence_threshold := 1/2 }

/-! ## ThumbnailExtractionJob (src/src/models/thumbnail_extraction_job.py) -/

/-- `JobStatus` enum (thumbnail_extraction_job.py lines 20-28). -/
inductive JobStatus where
  | created | queued | running | paused | completed | failed | cancelled
  deriving DecidableEq, Repr, Fintype

/-- The terminal statuses named by the specification. -/
def JobStatus.isTerminal : JobStatus → Bool
  | .completed | .failed | .cancelled => true
  | _ => false

/-- The job transition methods raise a plain `ValueError` when refused
(the spec calls it `InvalidJobStateError`). -/
inductive JobErr where
  | invalidState
  deriving DecidableEq, Repr

namespace ThumbnailExtractionJob

/-- `ThumbnailExtractionJob.start` (lines 179-189): only from CREATED. -/
def start (s : JobStatus) : Except JobErr JobStatus :=
  if s ≠ .created then .error .invalidState else .ok .running

/-- `ThumbnailExtractionJob.pause` (lines 191-199): only from RUNNING. -/
def pause (s : JobStatus) : Except JobErr JobStatus :=
  if s ≠ .running then .error .invalidState else .ok .paused

/-- `ThumbnailExtractionJob.resume` (lines 201-209): only from PAUSED. -/
def resume (s : JobStatus) : Except JobErr JobStatus :=
  if s ≠ .paused then .error .invalidState else .ok .running

/-- `ThumbnailExtractionJob.complete` (lines 211-227): from RUNNING or
PAUSED. -/
def complete (s : JobStatus) : Except JobErr JobStatus :=
  if s = .running ∨ s = .paused then .ok .completed else .error .invalidState

/-- `ThumbnailExtractionJob.fail` (lines 229-242): the method performs no
status check at all — it succeeds from every status, terminal ones
included. -/
def fail (_s : JobStatus) : Except JobErr JobStatus :=
  .ok .failed

/-- `ThumbnailExtractionJob.cancel` (lines 244-257): refused only from
COMPLETED and FAILED — cancelling an already CANCELLED job succeeds. -/
def cancel (s : JobStatus) : Except JobErr JobStatus :=
  if s = .completed ∨ s = .failed then .error .invalidState else .ok .cancelled

end ThumbnailExtractionJob

/-! ## Thumbnail composition
(src/src/models/thumbnail.py, src/src/services/thumbnail_extractor.py) -/

/-- Errors of the composition path: `cv2.error` raised by `cv2.resize`
for a non-positive target size, which `generate_thumbnail`'s outer handler
turns into `ThumbnailGenerationError`. -/
inductive ThumbErr where
  | generation
  deriving DecidableEq, Repr

/-- Contract of `cv2.resize(img, (w, h), interpolation=INTER_LANCZOS4)`:
on a positive target size it returns a buffer of exactly `w × h` pixels
(contents summarised by the opaque `data` payload); on a non-positive size
OpenCV raises. -/
def cv2_resize (img : Image) (w h : Int) : Except ThumbErr Image :=
  if w ≤ 0 ∨ h ≤ 0 then .error .generation
  else .ok { width := w.toNat, height := h.toNat, data := img.data }

namespace Thumbnail

/-- `Thumbnail.create_from_frame` (thumbnail.py lines 403-434): defaults
`image_data` to the frame's own buffer, resizes to the settings' output
size whenever the dimensions differ, and builds the Thumbnail (whose
`__post_init__` only warns, never raises, on a size mismatch).  The result
is the composed pixel buffer of the created Thumbnail. -/
def create_from_frame (source_frame : Frame) (user_settings : UserSettingsInput)
    (image_data : Option Image) : Except ThumbErr Image :=
  let img := image_data.getD source_frame.image_data
  if (img.width : Int) ≠ user_settings.output_width ∨
      (img.height : Int) ≠ user_settings.output_height then
    cv2_resize img user_settings.output_width user_settings.output_height
  else
    .ok img

end Thumbnail

/-- The centre crop of `ThumbnailExtractor.generate_thumbnail`
(thumbnail_extractor.py lines 126-174): the current aspect ratio is
compared with the requested `output_width / output_height`; the wider side
is centre-cropped to match.  `int(...)` truncation of the positive float
products is floor; numpy slicing clamps the end index to the axis length.
The whole block sits in a `try`/`except Exception: pass`, so the division
by zero on a degenerate frame leaves the image unchanged — in the rational
model `x / 0 = 0` only ever feeds the `max 0` / `min` clamps below, which
is harmless because composition resizes afterwards anyway. -/
def aspect_crop (img : Image) (ow oh : Int) : Image :=
  let target_aspect : ℚ := (ow : ℚ) / (oh : ℚ)
  let current_aspect : ℚ := (img.width : ℚ) / (img.height : ℚ)
  if current_aspect > target_aspect then
    let new_width : Nat := ⌊(img.height : ℚ) * target_aspect⌋.toNat
    let start_x : Nat := (img.width - new_width) / 2
    let end_x : Nat := start_x + new_width
    { img with width := min end_x img.width - start_x }
  else if current_aspect < target_aspect then
    let new_height : Nat := ⌊(img.width : ℚ) / target_aspect⌋.toNat
    let start_y : Nat := (img.height - new_height) / 2
    let end_y : Nat := start_y + new_height
    { img with height := min end_y img.height - start_y }
  else
    img

/-- `ThumbnailExtractor.generate_thumbnail` (thumbnail_extractor.py lines
111-178): aspect-ratio centre crop (identical arithmetic on the portrait
and landscape branches of the source, mirrored here through
`aspect_crop`), then `Thumbnail.create_from_frame` on the cropped
buffer. -/
def generate_thumbnail (frame : Frame) (settings : UserSettingsInput) :
    Except ThumbErr Image :=
  let processed := aspect_crop frame.image_data
      settings.output_width settings.output_height
  Thumbnail.create_from_frame frame settings (some processed)

/-! ## Frame extraction (src/src/services/video_processor.py lines 132-221) -/

/-- The video properties `extract_frames` consumes. -/
structure VideoFileProps where
  fps : ℚ
  total_frames : Nat
  deriving DecidableEq, Repr

/-- One run of the `while True` loop of `extract_frames`, with fuel
standing in for non-termination (`none` = the loop never exits).
State: position `current`, the `_frame_buffer`, and the frames yielded so
far.  Per iteration: decode (`read`), clear the buffer when it has reached
`max_buffer_size` — the source line 172 `self._frame_buffer.clear()` —
then build the `Frame`, buffer the raw pixels, yield, and advance by
`step` frames.  A `MemoryError` from the runtime (`memFail`) becomes
`InsufficientMemoryError`, which the enclosing `except Exception` handler
re-raises as `VideoProcessingError`. -/
def extractLoop (read : Nat → Option Image) (qual : Image → ℚ)
    (memFail : Nat → Bool) (max_buffer_size : Nat) (vf : VideoFileProps)
    (vref : VideoRef) (step : Nat) :
    Nat → Nat → List Image → List Frame → Option (Except VideoErr (List Frame))
  | 0, _, _, _ => none
  | fuel + 1, current, buffer, out =>
    match read current with
    | none => some (.ok out)
    | some px =>
        let buffer := if buffer.length ≥ max_buffer_size then [] else buffer
        if memFail current then
          some (.error .videoProcessing)
        else
          let frame : Frame :=
            { video_file := vref, frame_number := current,
              timestamp := (current : ℚ) / vf.fps,
              image_data := px, quality_score := qual px }
          let buffer := buffer ++ [px]
          let out := out ++ [frame]
          let next := current + step
          if next ≥ vf.total_frames then some (.ok out)
          else extractLoop read qual memFail max_buffer_size vf vref step
              fuel next buffer out

/-- `VideoProcessor.extract_frames` (video_processor.py lines 132-221),
collapsed from a generator to the list of all yielded frames: rejects a
non-positive interval, computes the frame step
`int(fps * interval_seconds)`, and runs the sampling loop starting at
frame 0 with an empty buffer. -/
def extract_frames (read : Nat → Option Image) (qual : Image → ℚ)
    (memFail : Nat → Bool) (max_buffer_size : Nat) (vf : VideoFileProps)
    (vref : VideoRef) (interval_seconds : ℚ) (fuel : Nat) :
    Option (Except VideoErr (List Frame)) :=
  if interval_seconds ≤ 0 then some (.error .valueError)
  else
    let step := ⌊vf.fps * interval_seconds⌋.toNat
    extractLoop read qual memFail max_buffer_size vf vref step fuel 0 [] []

/-- The hard-coded `self._max_buffer_size = 100` of
`VideoProcessor.__init__` (video_processor.py line 36). -/
def defaultMaxBufferSize : Nat := 100

/-! ## Batch save (src/src/services/thumbnail_extractor.py lines 358-434) -/

/-- Outcome of one `save_thumbnail` call inside the batch loop: a
successful save, a `False` return value, or an exception (permission,
disk space, I/O) — the latter two both count as one failure. -/
inductive SaveOutcome where
  | saved | returnedFalse | exc
  deriving DecidableEq, Repr

/-- `BatchSaveError`. -/
inductive BatchErr where
  | batchSave
  deriving DecidableEq, Repr

/-- The per-item loop of `save_thumbnails_batch`: `outcome i` is what
saving thumbnail `i` does, `fname i` the file path generated for it.
Accumulates the saved paths in order and counts failures. -/
def batchLoop {τ : Type} (outcome : Nat → SaveOutcome) (fname : Nat → String) :
    List τ → Nat → List String → Nat → List String × Nat
  | [], _, paths, failed => (paths, failed)
  | _ :: rest, i, paths, failed =>
      match outcome i with
      | .saved => batchLoop outcome fname rest (i + 1) (paths ++ [fname i]) failed
      | .returnedFalse => batchLoop outcome fname rest (i + 1) paths (failed + 1)
      | .exc => batchLoop outcome fname rest (i + 1) paths (failed + 1)

/-- `ThumbnailExtractor.save_thumbnails_batch` (thumbnail_extractor.py
lines 358-434), after the output-directory checks: an empty batch returns
`[]`; otherwise each thumbnail is saved independently and the whole batch
fails with `BatchSaveError` exactly when
`failed_count > len(thumbnails) * 0.5` (an exact float comparison,
modelled exactly in ℚ). -/
def save_thumbnails_batch {τ : Type} (outcome : Nat → SaveOutcome)
    (fname : Nat → String) (thumbnails : List τ) :
    Except BatchErr (List String) :=
  if thumbnails.length = 0 then .ok []
  else
    let r := batchLoop outcome fname thumbnails 0 [] 0
    if (r.2 : ℚ) > (thumbnails.length : ℚ) * (1/2) then .error .batchSave
    else .ok r.1

/-- Specification-side tally: which of the `n` items succeed, and the
paths they produce, written directly from the claim's wording. -/
def batchSuccessPaths (outcome : Nat → SaveOutcome) (fname : Nat → String)
    (n : Nat) : List String :=
  (List.range n).filterMap fun i =>
    if outcome i = .saved then some (fname i) else none

/-- Specification-side failure count over the `n` items. -/
def batchFailedCount (outcome : Nat → SaveOutcome) (n : Nat) : Nat :=
  ((List.range n).filter fun i => outcome i ≠ .saved).length

/-! ## DiversitySelector (src/src/services/diversity_selector.py)

The three per-signal diversity computations
(`_calculate_feature_diversity` over ORB descriptors,
`_calculate_histogram_diversity` over HSV histograms,
`_calculate_face_position_diversity` over face geometry) are pure OpenCV /
scikit-learn computations on pixel data; they enter the embedding as
function parameters `orbDiv`, `colorDiv`, `faceDiv` giving each frame's
per-signal score within the candidate list.  Likewise
`KMeans(n_clusters, random_state=42).fit_predict` enters as the
`kmeansLabels` parameter: `some labels` is the label array it returns
(one label per clustered row), `none` models the call raising, which the
method's `except Exception` handler turns into the score-order
fallback. -/

/-- Errors of the selector. -/
inductive SelectErr where
  | invalidCount
  | invalidWeight
  | insufficientFrames
  | diversityCalculation
  deriving DecidableEq, Repr

/-- `min(1.0, max(0.0, x))` as applied to every combined score
(diversity_selector.py line 96). -/
def clamp01 (x : ℚ) : ℚ := min 1 (max 0 x)

/-- The weighted per-frame diversity blend of
`calculate_diversity_scores` (lines 89-97): 0.4 ORB + 0.3 colour +
0.3 face position, clamped into `[0,1]`. -/
def diversityScore (orbDiv colorDiv faceDiv : List Frame → Nat → ℚ)
    (frames : List Frame) (i : Nat) : ℚ :=
  clamp01 (orbDiv frames i * (4/10) + colorDiv frames i * (3/10) +
    faceDiv frames i * (3/10))

/-- `DiversitySelector.calculate_diversity_scores` (lines 46-106): fewer
than two frames short-circuits to an all-1.0 list of the input's length —
for the empty list that is the empty list, not an error — and otherwise
the blended, clamped scores are returned. -/
def calculate_diversity_scores (orbDiv colorDiv faceDiv : List Frame → Nat → ℚ)
    (frames : List Frame) : Except SelectErr (List ℚ) :=
  if frames.length < 2 then
    .ok (List.replicate frames.length 1)
  else
    .ok ((List.range frames.length).map
      (diversityScore orbDiv colorDiv faceDiv frames))

/-- One entry of the `combined_scores` list of tuples
`(total_score, i, frame)` (lines 148-159). -/
structure ScoredFrame where
  score : ℚ
  idx : Nat
  frame : Frame
  deriving DecidableEq, Repr

/-- Placeholder for total indexing of `ScoredFrame` lists in positions the
source guarantees to be in range. -/
def dummyScored : ScoredFrame := { score := 0, idx := 0, frame := defaultFrame }

/-- The combined score blend of line 154-157:
`diversity * w + quality * (1 - w)`. -/
def combinedScore (ds : Nat → ℚ) (w : ℚ) (i : Nat) (f : Frame) : ℚ :=
  ds i * w + f.quality_score * (1 - w)

/-- Stable insertion step: place `x` before the first entry whose score is
not above `x`'s. -/
def insertDescStable (x : ScoredFrame) : List ScoredFrame → List ScoredFrame
  | [] => [x]
  | y :: ys => if x.score ≥ y.score then x :: y :: ys else y :: insertDescStable x ys

/-- `combined_scores.sort(key=lambda x: x[0], reverse=True)` (line 162):
CPython's Timsort is stable, so descending by score with ties kept in
original (index) order; any stable descending sort is extensionally this
insertion sort. -/
def stableSortDesc (l : List ScoredFrame) : List ScoredFrame :=
  l.foldr insertDescStable []

/-- `np.where(cluster_labels == cluster_id)[0]` (line 404): the positions
carrying the given label, in ascending order. -/
def clusterIndices (labels : List Nat) (cid : Nat) : List Nat :=
  labels.enum.filterMap fun p => if p.2 = cid then some p.1 else none

/-- The best-score scan over one cluster (lines 410-421).  For each member
position `idx` the source reads `candidate_indices[idx]` — an `IndexError`
(modelled by `.error ()`) if `idx` falls outside the candidate list, which
the method's outer handler would catch — and then scores it by
`scored_frames[original_idx][0]`: the score-sorted list indexed by the
frame's ORIGINAL position, not the member's own score.  The initial best
score is `-1.0` and only strict improvements move it. -/
def bestInCluster (candidate_indices : List Nat) (sorted_scores : List ScoredFrame) :
    List Nat → Option Nat → ℚ → Except Unit (Option Nat)
  | [], best, _ => .ok best
  | idx :: rest, best, bestScore =>
      if idx < candidate_indices.length then
        let original_idx := candidate_indices.getD idx 0
        let frame_score := (sorted_scores.getD original_idx dummyScored).score
        if frame_score > bestScore then
          bestInCluster candidate_indices sorted_scores rest (some idx) frame_score
        else
          bestInCluster candidate_indices sorted_scores rest best bestScore
      else
        .error ()

/-- The representative-collection loop over `cluster_id in
range(n_clusters)` (lines 401-421): empty clusters are skipped, a found
best member is appended as `candidates[best_idx_in_cluster]`. -/
def collectReps (labels candidate_indices : List Nat) (candidates : List Frame)
    (sorted_scores : List ScoredFrame) :
    List Nat → List Frame → Except Unit (List Frame)
  | [], acc => .ok acc
  | cid :: cids, acc =>
      let cis := clusterIndices labels cid
      if cis.isEmpty then
        collectReps labels candidate_indices candidates sorted_scores cids acc
      else
        match bestInCluster candidate_indices sorted_scores cis none (-1) with
        | .error e => .error e
        | .ok none =>
            collectReps labels candidate_indices candidates sorted_scores cids acc
        | .ok (some bi) =>
            collectReps labels candidate_indices candidates sorted_scores cids
              (acc ++ [candidates.getD bi defaultFrame])

/-- One full pass of the `for candidate in candidates` body of the fill
loop (lines 425-430): append each candidate not already present under
`Frame.__eq__`, breaking once the target count is reached.  The membership
test is Python `in`, i.e. `frameMem`. -/
def fillPass (count : Nat) : List Frame → List Frame → List Frame
  | [], sel => sel
  | c :: cs, sel =>
      if frameMem c sel then fillPass count cs sel
      else
        let sel2 := sel ++ [c]
        if count ≤ sel2.length then sel2 else fillPass count cs sel2

/-- The `while len(selected_frames) < count and len(selected_frames) <
len(candidates)` loop (lines 424-430), with fuel: `none` means the loop
never exits. -/
def fillLoop (candidates : List Frame) (count : Nat) :
    Nat → List Frame → Option (List Frame)
  | 0, sel =>
      if sel.length < count ∧ sel.length < candidates.length then none
      else some sel
  | fuel + 1, sel =>
      if sel.length < count ∧ sel.length < candidates.length then
        fillLoop candidates count fuel (fillPass count candidates sel)
      else some sel

/-- `DiversitySelector._select_with_clustering` (lines 357-437): top
`2 * count` candidates by sorted score, k-means labels over their feature
rows, per-cluster representative by the flawed best-score scan, fill loop,
truncation to `count`.  Any exception inside the body — a failing KMeans
call (`kmeansLabels = none`) or an `IndexError` in the scan — is caught on
line 433 and answered with the top-`min(count, len(scored_frames))`
frames in score order. -/
def select_with_clustering (kmeansLabels : Option (List Nat)) (fuel : Nat)
    (frames : List Frame) (scored_frames : List ScoredFrame) (count : Nat) :
    Option (List Frame) :=
  if frames.length ≤ count then some frames
  else
    let candidate_count := min scored_frames.length (count * 2)
    let candidates := (scored_frames.take candidate_count).map (·.frame)
    let candidate_indices := (scored_frames.take candidate_count).map (·.idx)
    if candidates.length ≤ count then some candidates
    else
      match kmeansLabels with
      | none =>
          some ((scored_frames.take (min count scored_frames.length)).map (·.frame))
      | some labels =>
          if count ≥ candidates.length then some candidates
          else
            let n_clusters := min count candidates.length
            match collectReps labels candidate_indices candidates scored_frames
                (List.range n_clusters) [] with
            | .error _ =>
                some ((scored_frames.take (min count scored_frames.length)).map
                  (·.frame))
            | .ok selected0 =>
                (fillLoop candidates count fuel selected0).map
                  (fun sel => sel.take count)

/-- `DiversitySelector.select_diverse_frames` (lines 109-177): argument
validation, the `len(frames) <= count` early return of the whole input,
the combined diversity/quality scoring, the stable descending sort and the
clustering selection. -/
def select_diverse_frames (orbDiv colorDiv faceDiv : List Frame → Nat → ℚ)
    (kmeansLabels : Option (List Nat)) (fuel : Nat)
    (frames : List Frame) (count : Int) (diversity_weight : ℚ) :
    Option (Except SelectErr (List Frame)) :=
  if count ≤ 0 then some (.error .invalidCount)
  else if ¬ (0 ≤ diversity_weight ∧ diversity_weight ≤ 1) then
    some (.error .invalidWeight)
  else if frames.length = 0 then some (.error .insufficientFrames)
  else if (frames.length : Int) ≤ count then some (.ok frames)
  else
    let dsList :=
      match calculate_diversity_scores orbDiv colorDiv faceDiv frames with
      | .ok l => l
      | .error _ => []
    let scored := frames.enum.map fun p =>
      ({ score := combinedScore (fun i => dsList.getD i 0) diversity_weight p.1 p.2,
         idx := p.1, frame := p.2 } : ScoredFrame)
    let sorted_scores := stableSortDesc scored
    (select_with_clustering kmeansLabels fuel frames sorted_scores count.toNat).map
      .ok

/-! ## Concrete inputs used by the theorems -/

/-- A 64×48 test frame of video 1 with pixel payload `10 + k`. -/
def g (k : Nat) : Frame :=
  { video_file := ⟨1⟩, frame_number := k, timestamp := (k : ℚ),
    image_data := ⟨64, 48, 10 + k⟩, quality_score := 0 }

/-- Three distinct frames of one video. -/
def framesThree : List Frame := [g 0, g 1, g 2]

/-- A per-signal diversity function that is identically zero. -/
def zeroSig : List Frame → Nat → ℚ := fun _ _ => 0

/-- An ORB-signal function yielding blended, clamped diversities
0.8, 0.1, 0.9 for the three frames of `framesThree`
(`0.4 * 2 = 0.8`, `0.4 * 1/4 = 0.1`, `0.4 * 9/4 = 0.9`). -/
def orbThree : List Frame → Nat → ℚ := fun _ i => [2, 1/4, 9/4].getD i 0

/-- Four frames that are pairwise equal under `Frame.__eq__` (same video,
same frame number 7) while being four distinct Python objects (distinct
pixel payloads) — exactly what repeated decoding of one frame position
produces. -/
def dupFrame (k : Nat) : Frame :=
  { video_file := ⟨0⟩, frame_number := 7, timestamp := 0,
    image_data := ⟨64, 48, k⟩, quality_score := 1 }

/-- The duplicate-frame input list. -/
def dupFrames : List Frame := [dupFrame 0, dupFrame 1, dupFrame 2, dupFrame 3]

/-! ## C1 — detect_scene_changes -/

/-- C1: `detect_scene_changes` on two frames with the default in-range
threshold 0.3 answers Python `None` — not the claimed subset of frames —
because the method body ends at the threshold check; the stranded
selection logic (`scene_change_dead_code`, here run with histogram
divergence 1 ≥ 0.3) would have answered the whole list.  The claim's
error branch is intact, but its success branch never runs. -/
theorem detect_scene_changes_no_result :
    detect_scene_changes framesThree (3/10) = .ok none ∧
    scene_change_dead_code (fun _ _ => 1) framesThree (3/10) = framesThree := by
  constructor
  · unfold detect_scene_changes
    rw [if_neg]
    norm_num
  · norm_num [framesThree, scene_change_dead_code, scene_change_dead_code.go]

/-! ## C2 — UserSettings construction -/

/-- C2: constructing a `UserSettings` never succeeds — on the repository's
own all-default, fully valid field values the validator dies with the
`AttributeError` on `self.orientation`, and every other input fails the
same way or earlier; the claimed "valid values construct successfully"
path is unreachable. -/
theorem mkUserSettings_never_constructs :
    mkUserSettings defaultSettingsInput = .error .attributeErrorOrientation ∧
    ∀ s : UserSettingsInput, ∃ e, mkUserSettings s = .error e := by
  refine ⟨by decide, fun s => ?_⟩
  have h : ∃ e, validate_output_settings s = .error e := by
    unfold validate_output_settings
    repeat' split
    all_goals exact ⟨_, rfl⟩
  obtain ⟨e, he⟩ := h
  exact ⟨e, by simp [mkUserSettings, he, Bind.bind, Except.bind]⟩

/-! ## C3 — ExtractionJob state machine -/

/-- C3 counterexample: COMPLETED is terminal, yet `fail` invoked there
neither raises nor leaves the status unchanged — it succeeds and moves the
job to FAILED, contradicting the claim that every transition operation
from a terminal state fails with an invalid-state error. -/
theorem job_fail_from_completed_succeeds :
    JobStatus.isTerminal .completed = true ∧
    ThumbnailExtractionJob.fail .completed = .ok .failed := by
  decide

/-- C3 amended: `start`, `pause`, `resume` and `complete` do refuse every
terminal state with the invalid-state error and leave the status alone,
but `fail` succeeds from every status (always answering FAILED), `cancel`
refuses only COMPLETED and FAILED while succeeding from CANCELLED, and
CREATED can leave to RUNNING (`start`), FAILED (`fail`) or CANCELLED
(`cancel`). -/
theorem job_transition_table_amended :
    (∀ s : JobStatus, s.isTerminal = true →
      ThumbnailExtractionJob.start s = .error .invalidState ∧
      ThumbnailExtractionJob.pause s = .error .invalidState ∧
      ThumbnailExtractionJob.resume s = .error .invalidState ∧
      ThumbnailExtractionJob.complete s = .error .invalidState) ∧
    (∀ s : JobStatus, ThumbnailExtractionJob.fail s = .ok .failed) ∧
    ThumbnailExtractionJob.cancel .completed = .error .invalidState ∧
    ThumbnailExtractionJob.cancel .failed = .error .invalidState ∧
    ThumbnailExtractionJob.cancel .cancelled = .ok .cancelled ∧
    ThumbnailExtractionJob.start .created = .ok .running ∧
    ThumbnailExtractionJob.pause .created = .error .invalidState ∧
    ThumbnailExtractionJob.resume .created = .error .invalidState ∧
    ThumbnailExtractionJob.complete .created = .error .invalidState ∧
    ThumbnailExtractionJob.cancel .created = .ok .cancelled := by
  decide

/-- Witness for the amended C3 theorem at the COMPLETED status. -/
theorem job_transition_table_amended_witness :
    ThumbnailExtractionJob.start .completed = .error .invalidState :=
  (job_transition_table_amended.1 .completed rfl).1

/-! ## C7 — scoreDiversity on small inputs -/

/-- C7 counterexample: on the empty frame list
`calculate_diversity_scores` answers successfully with the empty list
(`[1.0] * 0`), it does not raise `InsufficientFramesError` as claimed. -/
theorem calculate_diversity_scores_empty_ok :
    calculate_diversity_scores zeroSig zeroSig zeroSig [] = .ok [] := by
  decide

/-- C7 amended: for every input of fewer than two frames — the empty list
included — `calculate_diversity_scores` succeeds with the all-1.0 list of
the input's length; `InsufficientFramesError` is only raised by
`select_diverse_frames`, never here. -/
theorem calculate_diversity_scores_small_input
    (orbDiv colorDiv faceDiv : List Frame → Nat → ℚ) (frames : List Frame)
    (h : frames.length < 2) :
    calculate_diversity_scores orbDiv colorDiv faceDiv frames =
      .ok (List.replicate frames.length 1) := by
  unfold calculate_diversity_scores
  rw [if_pos h]

/-- Witness for the amended C7 theorem on a one-frame list. -/
theorem calculate_diversity_scores_small_input_witness :
    calculate_diversity_scores zeroSig zeroSig zeroSig [g 0] =
      .ok (List.replicate ([g 0] : List Frame).length 1) :=
  calculate_diversity_scores_small_input zeroSig zeroSig zeroSig [g 0]
    (by decide)

/-! ## C4 — composed thumbnail dimensions -/

/-- Helper for C4: whatever `create_from_frame` is handed, a successfully
composed buffer has exactly the settings' output dimensions — either they
already matched, or `cv2.resize` was called with exactly that target. -/
theorem create_from_frame_dims
    (frame : Frame) (s : UserSettingsInput) (img : Option Image) (t : Image)
    (hw : 0 < s.output_width) (hh : 0 < s.output_height)
    (ht : Thumbnail.create_from_frame frame s img = .ok t) :
    (t.width : Int) = s.output_width ∧ (t.height : Int) = s.output_height := by
  unfold Thumbnail.create_from_frame at ht
  set i := img.getD frame.image_data with hi
  by_cases hcond : (i.width : Int) ≠ s.output_width ∨ (i.height : Int) ≠ s.output_height
  · rw [if_pos hcond] at ht
    unfold cv2_resize at ht
    rw [if_neg (by omega)] at ht
    simp only [Except.ok.injEq] at ht
    subst ht
    constructor <;> simp [Int.toNat_of_nonneg hw.le, Int.toNat_of_nonneg hh.le]
  · rw [if_neg hcond] at ht
    simp only [Except.ok.injEq] at ht
    subst ht
    push_neg at hcond
    exact hcond

/-- C4: every composed thumbnail has a pixel buffer of exactly the
settings' `output_width × output_height` — both directly through
`Thumbnail.create_from_frame` and through the full
`generate_thumbnail` path (aspect crop, then composition). -/
theorem thumbnail_dims_match_settings
    (frame : Frame) (s : UserSettingsInput) (img : Option Image) (t u : Image)
    (hw : 0 < s.output_width) (hh : 0 < s.output_height)
    (ht : Thumbnail.create_from_frame frame s img = .ok t)
    (hu : generate_thumbnail frame s = .ok u) :
    ((t.width : Int) = s.output_width ∧ (t.height : Int) = s.output_height) ∧
    ((u.width : Int) = s.output_width ∧ (u.height : Int) = s.output_height) :=
  ⟨create_from_frame_dims frame s img t hw hh ht,
   create_from_frame_dims frame s _ u hw hh hu⟩

/-- A full-HD source frame for the C4 witness. -/
def frameFHD : Frame :=
  { video_file := ⟨2⟩, frame_number := 0, timestamp := 0,
    image_data := ⟨1920, 1080, 30⟩, quality_score := 0 }

/-- Witness for C4 on the default 1920×1080 settings. -/
theorem thumbnail_dims_match_settings_witness :
    ((((⟨1920, 1080, 30⟩ : Image).width : Int) = defaultSettingsInput.output_width ∧
      (((⟨1920, 1080, 30⟩ : Image)).height : Int) = defaultSettingsInput.output_height) ∧
     (((⟨1920, 1080, 30⟩ : Image).width : Int) = defaultSettingsInput.output_width ∧
      (((⟨1920, 1080, 30⟩ : Image)).height : Int) = defaultSettingsInput.output_height)) :=
  thumbnail_dims_match_settings frameFHD defaultSettingsInput none
    ⟨1920, 1080, 30⟩ ⟨1920, 1080, 30⟩ (by decide) (by decide)
    (by decide)
    (by norm_num [generate_thumbnail, aspect_crop, Thumbnail.create_from_frame,
      defaultSettingsInput, frameFHD])

/-! ## C6 — cluster representative selection -/

/-- The score-sorted tuple list that the selection stage receives for
`framesThree` when the combined scores are 9 (frame `g 2`), 8 (`g 0`) and
1 (`g 1`): descending by score, each entry keeping the frame's original
position in the `idx` component, exactly as `select_diverse_frames`
builds it on lines 148-162. -/
def sortedThree : List ScoredFrame :=
  [{ score := 9, idx := 2, frame := g 2 },
   { score := 8, idx := 0, frame := g 0 },
   { score := 1, idx := 1, frame := g 1 }]

/-- C6: with `count = 1` the two candidates `g 2` (score 9) and `g 0`
(score 8) form one k-means cluster (k = 1 labels every row 0), whose
highest-combined-score member is `g 2` — yet the algorithm selects `g 0`,
because line 414 evaluates `scored_frames[original_idx][0]`: it indexes
the score-sorted list by the frame's original position instead of taking
the member's own score. -/
theorem cluster_representative_not_max_score :
    select_with_clustering (some [0, 0]) 1 framesThree sortedThree 1 =
      some [g 0] ∧
    (sortedThree.take 2).map (fun e => e.frame) = [g 2, g 0] ∧
    (sortedThree.getD 0 dummyScored).score >
      (sortedThree.getD 1 dummyScored).score := by
  decide

/-! ## C9 — batch save -/

/-- The path component of the batch loop: the already-saved paths followed
by the paths of the remaining items whose outcome is a successful save,
in position order. -/
theorem batchLoop_fst {τ : Type} (outcome : Nat → SaveOutcome)
    (fname : Nat → String) :
    ∀ (l : List τ) (i : Nat) (paths : List String) (failed : Nat),
    (batchLoop outcome fname l i paths failed).1 =
      paths ++ (List.range' i l.length).filterMap
        (fun j => if outcome j = .saved then some (fname j) else none) := by
  intro l
  induction l with
  | nil => intro i paths failed; simp [batchLoop]
  | cons hd tl ih =>
      intro i paths failed
      rw [show (hd :: tl).length = tl.length + 1 from rfl,
        List.range'_succ i tl.length 1]
      cases ho : outcome i with
      | saved => simp [batchLoop, ho, ih, List.filterMap_cons]
      | returnedFalse => simp [batchLoop, ho, ih, List.filterMap_cons]
      | exc => simp [batchLoop, ho, ih, List.filterMap_cons]

/-- The failure-count component of the batch loop. -/
theorem batchLoop_snd {τ : Type} (outcome : Nat → SaveOutcome)
    (fname : Nat → String) :
    ∀ (l : List τ) (i : Nat) (paths : List String) (failed : Nat),
    (batchLoop outcome fname l i paths failed).2 =
      failed + ((List.range' i l.length).filter
        fun j => outcome j ≠ .saved).length := by
  intro l
  induction l with
  | nil => intro i paths failed; simp [batchLoop]
  | cons hd tl ih =>
      intro i paths failed
      rw [show (hd :: tl).length = tl.length + 1 from rfl,
        List.range'_succ i tl.length 1]
      cases ho : outcome i with
      | saved => simp [batchLoop, ho, ih, List.filter_cons]
      | returnedFalse => simp [batchLoop, ho, ih, List.filter_cons]; omega
      | exc => simp [batchLoop, ho, ih, List.filter_cons]; omega

/-- C9: `save_thumbnails_batch` saves each thumbnail independently and
raises `BatchSaveError` exactly when more than half of them fail
(`failed > n * 0.5`, i.e. `2 * failed > n`); otherwise it returns the
successfully saved paths, in order — partial success is not an error. -/
theorem save_thumbnails_batch_spec {τ : Type} (outcome : Nat → SaveOutcome)
    (fname : Nat → String) (thumbnails : List τ) :
    save_thumbnails_batch outcome fname thumbnails =
      if 2 * batchFailedCount outcome thumbnails.length > thumbnails.length then
        .error .batchSave
      else
        .ok (batchSuccessPaths outcome fname thumbnails.length) := by
  unfold save_thumbnails_batch
  by_cases h0 : thumbnails.length = 0
  · rw [if_pos h0, h0]
    simp [batchFailedCount, batchSuccessPaths]
  · rw [if_neg h0]
    have hfst : (batchLoop outcome fname thumbnails 0 [] 0).1 =
        batchSuccessPaths outcome fname thumbnails.length := by
      rw [batchLoop_fst]
      simp [batchSuccessPaths, List.range_eq_range']
    have hsnd : (batchLoop outcome fname thumbnails 0 [] 0).2 =
        batchFailedCount outcome thumbnails.length := by
      rw [batchLoop_snd]
      simp [batchFailedCount, List.range_eq_range']
    have hiff :
        (((batchLoop outcome fname thumbnails 0 [] 0).2 : ℚ) >
          (thumbnails.length : ℚ) * (1/2)) ↔
        2 * batchFailedCount outcome thumbnails.length > thumbnails.length := by
      rw [hsnd, gt_iff_lt, mul_one_div, div_lt_iff₀ (by norm_num : (0:ℚ) < 2),
        gt_iff_lt]
      constructor
      · intro h
        have h2 : ((thumbnails.length : ℕ) : ℚ) <
            ((2 * batchFailedCount outcome thumbnails.length : ℕ) : ℚ) := by
          push_cast
          linarith
        exact_mod_cast h2
      · intro h
        have h2 : ((thumbnails.length : ℕ) : ℚ) <
            ((2 * batchFailedCount outcome thumbnails.length : ℕ) : ℚ) := by
          exact_mod_cast h
        push_cast at h2
        linarith
    by_cases hc : 2 * batchFailedCount outcome thumbnails.length >
        thumbnails.length
    · rw [if_pos (hiff.mpr hc), if_pos hc]
    · rw [if_neg (fun hx => hc (hiff.mp hx)), if_neg hc, hfst]

/-! ## C8 — the sampling frame buffer -/

/-- A decoder that succeeds at every position with a 64×48 buffer. -/
def readAll : Nat → Option Image := fun n => some ⟨64, 48, n⟩

/-- No runtime `MemoryError` occurs. -/
def noMemFail : Nat → Bool := fun _ => false

/-- A constant quality for decoded frames. -/
def qualZero : Image → ℚ := fun _ => 0

/-- A 102-frame, 1 fps video: two frames more than the buffer bound. -/
def vf102 : VideoFileProps := { fps := 1, total_frames := 102 }

/-- C8 counterexample: sampling a video with more frames (102) than the
configured buffer maximum (100) does NOT fail with
`InsufficientMemoryError` when the buffer fills — the buffer is silently
cleared (video_processor.py line 172) and extraction continues, returning
all 102 frames. -/
theorem extract_frames_clears_buffer_and_continues :
    defaultMaxBufferSize < 102 ∧
    (extract_frames readAll qualZero noMemFail defaultMaxBufferSize vf102 ⟨0⟩
        1 200).map (Except.map List.length) = some (.ok 102) := by
  refine ⟨by decide, ?_⟩
  unfold extract_frames
  rw [if_neg (by norm_num)]
  show (extractLoop readAll qualZero noMemFail defaultMaxBufferSize vf102 ⟨0⟩
      (⌊vf102.fps * 1⌋.toNat) 200 0 [] []).map (Except.map List.length) =
    some (.ok 102)
  have hstep : (⌊vf102.fps * 1⌋ : ℤ).toNat = 1 := by
    norm_num [vf102]
  rw [hstep]
  decide

/-- Helper for C8: when the runtime never signals `MemoryError`, the
sampling loop can only end in success — reaching the buffer bound is not
an error path. -/
theorem extractLoop_ok_of_no_memFail (read : Nat → Option Image)
    (qual : Image → ℚ) (maxBuf : Nat) (vf : VideoFileProps) (vref : VideoRef)
    (step : Nat) :
    ∀ (fuel current : Nat) (buffer : List Image) (out : List Frame)
      (r : Except VideoErr (List Frame)),
    extractLoop read qual (fun _ => false) maxBuf vf vref step fuel current
        buffer out = some r →
    ∃ l, r = .ok l := by
  intro fuel
  induction fuel with
  | zero =>
      intro current buffer out r h
      simp [extractLoop] at h
  | succ n ih =>
      intro current buffer out r h
      rw [extractLoop] at h
      cases hr : read current with
      | none =>
          rw [hr] at h
          simp only [Option.some.injEq] at h
          exact ⟨out, h.symm⟩
      | some px =>
          rw [hr] at h
          simp only [Bool.false_eq_true, if_false] at h
          split at h
          · simp only [Option.some.injEq] at h
            exact ⟨_, h.symm⟩
          · exact ih _ _ _ r h

/-- C8 amended: when the in-memory frame buffer reaches its configured
maximum the buffer is cleared and sampling continues — no error is
raised.  `InsufficientMemoryError` arises only from a runtime
`MemoryError` during frame creation, and even then the enclosing handler
re-raises it as `VideoProcessingError`; so with no runtime memory fault
every completed extraction succeeds, regardless of the buffer bound. -/
theorem extract_frames_no_memory_error (read : Nat → Option Image)
    (qual : Image → ℚ) (maxBuf : Nat) (vf : VideoFileProps) (vref : VideoRef)
    (interval : ℚ) (fuel : Nat) (r : Except VideoErr (List Frame))
    (hi : 0 < interval)
    (hrun : extract_frames read qual (fun _ => false) maxBuf vf vref interval
        fuel = some r) :
    ∃ l, r = .ok l := by
  unfold extract_frames at hrun
  rw [if_neg (by linarith)] at hrun
  exact extractLoop_ok_of_no_memFail read qual maxBuf vf vref _ fuel 0 [] [] r
    hrun

/-- Witness for the amended C8 theorem on a one-frame video. -/
theorem extract_frames_no_memory_error_witness :
    ∃ l, (Except.ok [(⟨⟨0⟩, 0, 0, ⟨64, 48, 0⟩, 0⟩ : Frame)] :
      Except VideoErr (List Frame)) = .ok l :=
  extract_frames_no_memory_error readAll qualZero 100 ⟨1, 1⟩ ⟨0⟩ 1 1 _
    (by norm_num)
    (by norm_num [extract_frames, extractLoop, readAll, qualZero])

/-! ## C10 — termination of the fill loop -/

/-- Helper for C10: every entry of `dupFrames` compares equal (under
`Frame.__eq__`) to the one already-selected representative, so a full
pass of the fill body appends nothing. -/
theorem fillPass_dup_fixed : fillPass 3 dupFrames [dupFrame 0] = [dupFrame 0] := by
  decide

/-- Helper for C10: with the selection one short of the target and every
candidate already "in" the selection by `Frame.__eq__`, the
`while` loop never exits, whatever fuel it is given. -/
theorem fillLoop_dup_none :
    ∀ fuel, fillLoop dupFrames 3 fuel [dupFrame 0] = none := by
  intro fuel
  induction fuel with
  | zero => decide
  | succ n ih =>
      rw [fillLoop, if_pos (by decide), fillPass_dup_fixed]
      exact ih

/-- The combined-score tuples the selector builds for `dupFrames` with
diversity weight 0: every diversity contribution is weighted away and
every quality is 1, so all four combined scores are 1 and the stable sort
keeps the original order. -/
def sortedDup : List ScoredFrame :=
  [{ score := 1, idx := 0, frame := dupFrame 0 },
   { score := 1, idx := 1, frame := dupFrame 1 },
   { score := 1, idx := 2, frame := dupFrame 2 },
   { score := 1, idx := 3, frame := dupFrame 3 }]

/-- Helper for C10: on the duplicate-frame input the selector reaches the
fill loop with a single selected representative (the lone non-empty
cluster's pick), every candidate equal to it, and three slots to fill. -/
theorem select_dup_reduction (fuel : Nat) :
    select_diverse_frames zeroSig zeroSig zeroSig (some [0, 0, 0, 0]) fuel
        dupFrames 3 0 =
      ((fillLoop dupFrames 3 fuel [dupFrame 0]).map
        (fun sel => sel.take 3)).map Except.ok := by
  have h1 : select_diverse_frames zeroSig zeroSig zeroSig (some [0, 0, 0, 0])
      fuel dupFrames 3 0 =
      (select_with_clustering (some [0, 0, 0, 0]) fuel dupFrames sortedDup
        3).map Except.ok := by
    norm_num [select_diverse_frames, calculate_diversity_scores,
      diversityScore, clamp01, combinedScore, stableSortDesc,
      insertDescStable, zeroSig, List.enum, List.enumFrom, sortedDup,
      dupFrames, dupFrame, show (3 : Int).toNat = 3 from rfl]
  rw [h1]
  rfl

/-- C10: `select_diverse_frames` does NOT terminate on every input —
on four frames that compare equal under `Frame.__eq__` (one decoded
position buffered four times) with `count = 3`, k-means degenerates to a
single distinct cluster (labels all 0, the others empty), only one
representative is collected, and the fill loop makes no progress under
Python `in`-equality: for every fuel the run yields no result, i.e. the
source loops forever. -/
theorem select_diverse_frames_diverges_on_duplicates (fuel : Nat) :
    select_diverse_frames zeroSig zeroSig zeroSig (some [0, 0, 0, 0]) fuel
      dupFrames 3 0 = none := by
  rw [select_dup_reduction fuel, fillLoop_dup_none fuel]
  rfl

/-! ## C5 — size of the selected subset -/

/-- Stable insertion grows the list by one. -/
theorem insertDescStable_length (x : ScoredFrame) (l : List ScoredFrame) :
    (insertDescStable x l).length = l.length + 1 := by
  induction l with
  | nil => rfl
  | cons y ys ih =>
      rw [insertDescStable]
      split
      · simp
      · simp [ih]

/-- The stable sort is a permutation in particular in length. -/
theorem stableSortDesc_length (l : List ScoredFrame) :
    (stableSortDesc l).length = l.length := by
  induction l with
  | nil => rfl
  | cons y ys ih =>
      simp only [stableSortDesc, List.foldr_cons] at ih ⊢
      rw [insertDescStable_length, ih, List.length_cons]

/-- When the fill loop does exit, its guard has just failed. -/
theorem fillLoop_exit (cands : List Frame) (c : Nat) :
    ∀ (fuel : Nat) (sel s' : List Frame),
    fillLoop cands c fuel sel = some s' →
    ¬ (s'.length < c ∧ s'.length < cands.length) := by
  intro fuel
  induction fuel with
  | zero =>
      intro sel s' h
      rw [fillLoop] at h
      by_cases hg : sel.length < c ∧ sel.length < cands.length
      · rw [if_pos hg] at h
        exact absurd h (by simp)
      · rw [if_neg hg] at h
        simp only [Option.some.injEq] at h
        subst h
        exact hg
  | succ n ih =>
      intro sel s' h
      rw [fillLoop] at h
      by_cases hg : sel.length < c ∧ sel.length < cands.length
      · rw [if_pos hg] at h
        exact ih _ _ h
      · rw [if_neg hg] at h
        simp only [Option.some.injEq] at h
        subst h
        exact hg

/-- Helper for C5: whenever the clustering stage produces a result for a
target `c` strictly between 0 and the frame count, the result has exactly
`c` frames — the representatives never exceed the cluster count `c`, the
fill loop only exits at `c` (the candidate pool is strictly larger), and
both fallbacks truncate to `c`. -/
theorem select_with_clustering_length (kmeansLabels : Option (List Nat))
    (fuel : Nat) (frames : List Frame) (sorted : List ScoredFrame) (c : Nat)
    (res : List Frame) (hc : 0 < c) (hn : c < frames.length)
    (hlen : sorted.length = frames.length)
    (h : select_with_clustering kmeansLabels fuel frames sorted c = some res) :
    res.length = c := by
  simp only [select_with_clustering] at h
  rw [if_neg (by omega)] at h
  have hcand : c < min sorted.length (c * 2) := by omega
  have hclen : ((sorted.take (min sorted.length (c * 2))).map
      (fun e => e.frame)).length = min sorted.length (c * 2) := by
    simp only [List.length_map, List.length_take]
    omega
  rw [if_neg (by omega : ¬ ((sorted.take (min sorted.length (c * 2))).map
    (fun e => e.frame)).length ≤ c)] at h
  cases kmeansLabels with
  | none =>
      dsimp only at h
      simp only [Option.some.injEq] at h
      subst h
      simp only [List.length_map, List.length_take]
      omega
  | some labels =>
      dsimp only at h
      rw [if_neg (by rw [hclen]; omega)] at h
      cases hrep : collectReps labels
          ((sorted.take (min sorted.length (c * 2))).map (fun e => e.idx))
          ((sorted.take (min sorted.length (c * 2))).map (fun e => e.frame))
          sorted (List.range (min c ((sorted.take (min sorted.length
            (c * 2))).map (fun e => e.frame)).length)) [] with
      | error e =>
          rw [hrep] at h
          simp only [Option.some.injEq] at h
          subst h
          simp only [List.length_map, List.length_take]
          omega
      | ok sel0 =>
          rw [hrep] at h
          obtain ⟨sel, hsel, hres⟩ := Option.map_eq_some'.mp h
          have hexit := fillLoop_exit _ _ _ _ _ hsel
          rw [hclen] at hexit
          subst hres
          simp only [List.length_take]
          omega

/-- C5: for every valid call (`count > 0`, weight in `[0,1]`) that
produces a result, the selected subset has exactly
`min count frames.length` frames — `count` of them whenever enough frames
are available, all of them otherwise — and in particular never more than
`count`. -/
theorem select_diverse_frames_length
    (orbDiv colorDiv faceDiv : List Frame → Nat → ℚ)
    (kmeansLabels : Option (List Nat)) (fuel : Nat) (frames : List Frame)
    (count : Int) (w : ℚ) (res : List Frame)
    (hc : 0 < count) (hw : 0 ≤ w ∧ w ≤ 1)
    (hrun : select_diverse_frames orbDiv colorDiv faceDiv kmeansLabels fuel
        frames count w = some (.ok res)) :
    res.length = min count.toNat frames.length ∧
    res.length ≤ count.toNat := by
  unfold select_diverse_frames at hrun
  rw [if_neg (by omega)] at hrun
  rw [if_neg (not_not_intro hw)] at hrun
  by_cases h0 : frames.length = 0
  · rw [if_pos h0] at hrun
    exact absurd hrun (by simp)
  · rw [if_neg h0] at hrun
    by_cases hle : (frames.length : Int) ≤ count
    · rw [if_pos hle] at hrun
      simp only [Option.some.injEq, Except.ok.injEq] at hrun
      subst hrun
      constructor <;> omega
    · rw [if_neg hle] at hrun
      obtain ⟨r0, hr0, hinj⟩ := Option.map_eq_some'.mp hrun
      have hr : r0 = res := by simpa using hinj
      subst hr
      have hlen2 : ∀ (l : List Frame) (f : Nat × Frame → ScoredFrame),
          (stableSortDesc (l.enum.map f)).length = l.length := by
        intro l f
        rw [stableSortDesc_length]
        simp
      have hmain := select_with_clustering_length kmeansLabels fuel frames _
        count.toNat r0 (by omega) (by omega) (hlen2 frames _) hr0
      constructor <;> omega

/-- Witness for C5 through the `frames.length ≤ count` branch: two frames
requested five thumbnails yield both frames. -/
theorem select_diverse_frames_length_witness :
    ([g 0, g 1] : List Frame).length =
      min (5 : Int).toNat ([g 0, g 1] : List Frame).length ∧
    ([g 0, g 1] : List Frame).length ≤ (5 : Int).toNat :=
  select_diverse_frames_length zeroSig zeroSig zeroSig none 0 [g 0, g 1] 5 0
    [g 0, g 1] (by norm_num) (by norm_num) (by decide)

end KM
